import Mathlib

/-!
# Verification of the mini-agents weather/language query pipeline

A shallow embedding of `weather_agent.py` and `language_agent.py`.

Modelling conventions:
* Python strings are Lean `String`s; character-level work is done on `List Char`.
* Python's unbounded integers are `Int`; real-valued arithmetic (Python floats)
  is modelled exactly over `ℚ`, with Python's `round(x, n)` modelled as
  round-half-to-even on rationals (`pyRound`).
* External collaborators (the Anthropic client and the weather HTTP provider)
  are oracle parameters; their outputs are arbitrary values supplied to the
  embedded functions.
* Fallible code returns `Except`: an uncaught Python exception is `.error`.
-/

namespace MiniAgents

/-- Python's `\s` character class (ASCII range). -/
def pws (c : Char) : Bool :=
  c = ' ' || c = '\t' || c = '\n' || c = '\x0b' || c = '\x0c' || c = '\r'

/-- Python's `\w` character class (ASCII range): letters, digits, underscore. -/
def isWordChar (c : Char) : Bool :=
  c.isAlphanum || c = '_'

/-- A character matched by the regex class `[\w\s]`. -/
def wsOrWord (c : Char) : Bool :=
  isWordChar c || pws c

/-- Python `str.lower()` (ASCII range). -/
def lowerL (l : List Char) : List Char := l.map Char.toLower

/-- Python `str.strip()`: remove leading and trailing whitespace. -/
def pstrip (l : List Char) : List Char :=
  ((l.dropWhile pws).reverse.dropWhile pws).reverse

/-- Python `str.split()` with no argument: split on whitespace runs,
dropping empty pieces. -/
def splitWsAux : List Char → List Char → List (List Char)
  | [], acc => if acc.isEmpty then [] else [acc.reverse]
  | c :: cs, acc =>
      if pws c then
        (if acc.isEmpty then splitWsAux cs [] else acc.reverse :: splitWsAux cs [])
      else splitWsAux cs (c :: acc)

/-- Python `str.split()` with no argument. -/
def splitWs (l : List Char) : List (List Char) := splitWsAux l []

/-- The three time words the extractor's patterns strip:
`today`, `now`, `tomorrow`. -/
def timeWords : List (List Char) := ["today".data, "now".data, "tomorrow".data]

/-- Does `t` match the regex fragment `(?:\s+(?:today|now|tomorrow))` exactly,
i.e. one or more whitespace characters followed by a time word? -/
def isTimeTail (t : List Char) : Bool :=
  !(t.takeWhile pws).isEmpty && (t.dropWhile pws) ∈ timeWords

/-- Does `r` match the regex fragment `(?:\s+(?:today|now|tomorrow))?\??$`,
i.e. an optional whitespace-plus-time-word group, an optional `?`, then
end of string? -/
def tailOk (r : List Char) : Bool :=
  r.isEmpty || isTimeTail r ||
    (r.getLast? = some '?' && (r.dropLast.isEmpty || isTimeTail r.dropLast))

/-- Backtracking semantics of the lazy capture `([\w\s]+?)` followed by
`(?:\s+(?:today|now|tomorrow))?\??$`: the shortest nonempty prefix of
`[\w\s]` characters whose remainder matches the tail.  `acc` holds the
reversed capture consumed so far. -/
def lazyCaptureAux : List Char → List Char → Option (List Char)
  | _, [] => none
  | acc, c :: cs =>
      if wsOrWord c then
        if tailOk cs then some ((c :: acc).reverse)
        else lazyCaptureAux (c :: acc) cs
      else none

/-- The capture group of `([\w\s]+?)(?:\s+(?:today|now|tomorrow))?\??$`
when matched against `rest` starting at its first character. -/
def lazyCapture (rest : List Char) : Option (List Char) :=
  lazyCaptureAux [] rest

/-- Try each literal prefix (a regex alternation, in backtracking order) at
the current position; on a prefix hit, the suffix pattern must also match. -/
def tryLits : List (List Char) → List Char → Option (List Char)
  | [], _ => none
  | lit :: ls, q =>
      if lit.isPrefixOf q then
        match lazyCapture (q.drop lit.length) with
        | some c => some c
        | none => tryLits ls q
      else tryLits ls q

/-- `re.search` semantics for a pattern `lits-alternation` followed by the
capture suffix: scan positions left to right, returning the first match's
capture. -/
def searchCap (lits : List (List Char)) : List Char → Option (List Char)
  | [] => none
  | q@(_ :: rest) =>
      match tryLits lits q with
      | some c => some c
      | none => searchCap lits rest

/-- The apostrophe character (used by the `what's` / `how's` literals). -/
def apos : Char := Char.ofNat 39

/-- Literal expansions of `weather (?:in|at|for) `. -/
def p1lits : List (List Char) :=
  ["weather in ".data, "weather at ".data, "weather for ".data]

/-- Literal expansion of `weather `. -/
def p2lits : List (List Char) := ["weather ".data]

/-- Literal expansions of
`(?:what's|what is|how's|how is) (?:the )?weather (?:like )?(?:in|at|for) `,
in regex backtracking order (rightmost choice point varies fastest). -/
def p3lits : List (List Char) :=
  (["what".data ++ [apos, 's', ' '], "what is ".data,
    "how".data ++ [apos, 's', ' '], "how is ".data]).flatMap fun h =>
    (["the ".data, []]).flatMap fun th =>
      (["like ".data, []]).flatMap fun lk =>
        (["in ".data, "at ".data, "for ".data]).map fun pr =>
          h ++ th ++ "weather ".data ++ lk ++ pr

/-- Literal expansions of `temperature (?:in|at|for) `. -/
def p4lits : List (List Char) :=
  ["temperature in ".data, "temperature at ".data, "temperature for ".data]

/-- Try the four patterns of `extract_location` in order, each searched over
the whole (cleaned) query before the next is tried. -/
def searchPatterns (q : List Char) : Option (List Char) :=
  match searchCap p1lits q with
  | some c => some c
  | none =>
      match searchCap p2lits q with
      | some c => some c
      | none =>
          match searchCap p3lits q with
          | some c => some c
          | none => searchCap p4lits q

/-- Does `t` match `(?:today|now|tomorrow)\s*$` after an optional leading
`\s*`, i.e. can `re.sub(r'\s*(?:today|now|tomorrow)\s*$', '', ...)` match at
the start of `t`? -/
def timeSubMatch (t : List Char) : Bool :=
  timeWords.any fun tw =>
    tw.isPrefixOf (t.dropWhile pws) && ((t.dropWhile pws).drop tw.length).all pws

/-- `re.sub(r'\s*(?:today|now|tomorrow)\s*$', '', s)`: delete from the
leftmost position where the remaining suffix is optional whitespace, a time
word, then optional whitespace to the end. -/
def stripTimeRe : List Char → List Char
  | [] => []
  | c :: cs => if timeSubMatch (c :: cs) then [] else c :: stripTimeRe cs

/-- Does any suffix of `s` match the trailing-time-reference pattern?
(`stripTimeRe` is the identity exactly when this is false.) -/
def hasTimeRef : List Char → Bool
  | [] => false
  | c :: cs => timeSubMatch (c :: cs) || hasTimeRef cs

/-- A location value `{"city": ...}` as produced by `extract_location`. -/
structure Location where
  city : String
deriving DecidableEq, Repr

/-- `WeatherAgent.extract_location`: lowercase and strip the query, try the
four regex patterns in order (first match wins; the capture is stripped and
has a trailing time reference removed by `re.sub`), otherwise fall back to
the Claude-based extractor.  The fallback call — model request, text
extraction, cleanup, and its exception handler — is abstracted as the oracle
`fb`, which receives the cleaned query and returns the final optional
location. -/
def extract_location (fb : String → Option Location) (query : String) :
    Option Location :=
  let q := pstrip (lowerL query.data)
  match searchPatterns q with
  | some cap => some ⟨String.mk (stripTimeRe (pstrip cap))⟩
  | none => fb (String.mk q)

/-- The fixed keyword vocabulary of `is_weather_related`. -/
def weather_keywords : List (List Char) :=
  ["weather".data, "temperature".data, "rain".data, "snow".data, "wind".data,
   "sunny".data, "cloudy".data, "forecast".data, "humidity".data,
   "storm".data, "climate".data, "precipitation".data, "cold".data,
   "hot".data, "warm".data, "chilly".data, "freezing".data, "degrees".data,
   "celsius".data, "fahrenheit".data]

/-- `WeatherAgent.is_weather_related`: some whole word of the lowercased
query is a weather keyword. -/
def is_weather_related (query : String) : Bool :=
  let queryWords := splitWs (lowerL query.data)
  weather_keywords.any fun kw => queryWords.contains kw

/-- Literal expansions of the six `is_weather_query` regexes (each is a pure
alternation of literals, so `re.search` is substring membership). -/
def weatherQueryLits : List (List Char) :=
  ["weather in".data, "weather at".data, "weather for".data,
   "what".data ++ [apos, 's'] ++ " the weather".data,
   "what".data ++ [apos, 's'] ++ " weather".data,
   "what is the weather".data, "what is weather".data,
   "how".data ++ [apos, 's'] ++ " the weather".data,
   "how".data ++ [apos, 's'] ++ " weather".data,
   "how is the weather".data, "how is weather".data,
   "temperature in".data, "temperature at".data, "temperature for".data,
   "is it raining".data, "is it snowing".data, "is it sunny".data,
   "is it cloudy".data,
   "will it rain".data, "will it snow".data,
   "forecast".data]

/-- `re.search` of a literal: does `pat` occur as a contiguous substring? -/
def containsSub (pat : List Char) : List Char → Bool
  | [] => pat.isEmpty
  | q@(_ :: rest) => pat.isPrefixOf q || containsSub pat rest

/-- `WeatherAgent.is_weather_query`: some pattern literal occurs in the
lowercased query. -/
def is_weather_query (query : String) : Bool :=
  let q := lowerL query.data
  weatherQueryLits.any fun lit => containsSub lit q

/-! ## Rate-limit bookkeeping (shared shape of both agents) -/

/-- The in-memory rate-limit record `{"limit", "remaining", "reset_at"}`.
Python integers are unbounded, so `remaining` is an `Int` (it can go
negative). -/
structure RateLimit where
  limit : Int
  remaining : Int
  reset_at : Int
deriving DecidableEq, Repr

/-- The rate-limit record built in both agents' `__init__`:
limit 100000, remaining 100000, reset one hour from now. -/
def init_rate_limit (now : Int) : RateLimit :=
  { limit := 100000, remaining := 100000, reset_at := now + 3600 }

/-- `update_rate_limit` (identical in both agents): decrement `remaining`;
if the result is `≤ 0` and the reset time has passed, refill to `limit` and
push `reset_at` to one hour after the current time. -/
def update_rate_limit (now : Int) (rl : RateLimit) : RateLimit :=
  let r := rl.remaining - 1
  if r ≤ 0 then
    if now ≥ rl.reset_at then
      { limit := rl.limit, remaining := rl.limit, reset_at := now + 3600 }
    else { rl with remaining := r }
  else { rl with remaining := r }

/-! ## Raw weather-provider payload and its formatting -/

/-- The `"main"` sub-object of a raw provider payload.  Each field is
`Option`al: `none` models an absent key (a `KeyError` on subscript
access). -/
structure MainBlock where
  temp : Option ℚ
  humidity : Option ℚ
  feels_like : Option ℚ
  pressure : Option ℚ
deriving DecidableEq, Repr

/-- One element of the `"weather"` array of a raw payload. -/
structure WeatherItem where
  wmain : Option String
  description : Option String
  icon : Option String
deriving DecidableEq, Repr

/-- The `"wind"` sub-object of a raw payload. -/
structure WindBlock where
  speed : Option ℚ
  deg : Option ℚ
  gust : Option ℚ
deriving DecidableEq, Repr

/-- The `"sys"` sub-object of a raw payload. -/
structure SysBlock where
  country : Option String
deriving DecidableEq, Repr

/-- The `"coord"` sub-object of a raw payload. -/
structure CoordBlock where
  lat : Option ℚ
  lon : Option ℚ
deriving DecidableEq, Repr

/-- A raw provider payload (`response.json()`), modelled with the keys the
agent reads.  `errKey` records whether an `"error"` key is present (checked
by `format_weather_data`); `extraKeys` records whether the dict carries any
key outside the modelled ones, which matters only for Python dict
truthiness. -/
structure Payload where
  main : Option MainBlock
  weather : Option (List WeatherItem)
  wind : Option WindBlock
  name : Option String
  sys : Option SysBlock
  coord : Option CoordBlock
  visibility : Option ℚ
  timezone : Option Int
  dt : Option Int
  errKey : Bool
  extraKeys : Bool
deriving DecidableEq, Repr

/-- The empty dict `{}` as a payload. -/
def emptyPayload : Payload :=
  { main := none, weather := none, wind := none, name := none, sys := none,
    coord := none, visibility := none, timezone := none, dt := none,
    errKey := false, extraKeys := false }

/-- Python truthiness of the payload dict is falsity of this test. -/
def Payload.isEmptyP (d : Payload) : Bool :=
  d.main.isNone && d.weather.isNone && d.wind.isNone && d.name.isNone &&
  d.sys.isNone && d.coord.isNone && d.visibility.isNone &&
  d.timezone.isNone && d.dt.isNone && !d.errKey && !d.extraKeys

/-- Python dict truthiness (`if weather_data`): nonempty. -/
def Payload.truthy (d : Payload) : Bool := !d.isEmptyP

/-- A Python runtime error relevant here: `KeyError` is caught by
`format_weather_data`, `IndexError` is not. -/
inductive PyErr where
  | keyError
  | indexError
deriving DecidableEq, Repr

/-- Subscripting a dict key: raises `KeyError` when absent. -/
def getK {α : Type} : Option α → Except PyErr α
  | some a => .ok a
  | none => .error .keyError

/-- Subscripting `[0]` on a list: raises `IndexError` when empty. -/
def idx0 {α : Type} : List α → Except PyErr α
  | [] => .error .indexError
  | a :: _ => .ok a

/-- Round-half-to-even on rationals, Python's rounding mode for `round`. -/
def rhe (x : ℚ) : ℤ :=
  let n := ⌊x⌋
  let f := x - n
  if f < 1/2 then n
  else if 1/2 < f then n + 1
  else if Even n then n else n + 1

/-- Python `round(x, d)` modelled exactly over `ℚ`. -/
def pyRound (d : ℕ) (x : ℚ) : ℚ :=
  (rhe (x * 10 ^ d) : ℚ) / 10 ^ d

/-- The `"location"` group of a formatted record (built with `.get`, so all
fields are optional and no error can arise). -/
structure LocationInfo where
  city : Option String
  country : Option String
  lat : Option ℚ
  lon : Option ℚ
deriving DecidableEq, Repr

/-- The `"temperature"` group of a formatted record. -/
structure TempInfo where
  celsius : ℚ
  fahrenheit : ℚ
  feels_like_c : ℚ
  feels_like_f : ℚ
deriving DecidableEq, Repr

/-- The `"conditions"` group of a formatted record. -/
structure CondInfo where
  cmain : String
  description : String
  icon_code : String
deriving DecidableEq, Repr

/-- The `"wind"` group of a formatted record. -/
structure WindInfo where
  speed_ms : ℚ
  speed_mph : ℚ
  direction_degrees : Option ℚ
  gust_ms : Option ℚ
deriving DecidableEq, Repr

/-- The complete formatted weather record returned on the success path of
`format_weather_data`. -/
structure FormattedWeather where
  location : LocationInfo
  temperature : TempInfo
  humidity : ℚ
  conditions : CondInfo
  wind : WindInfo
  pressure : Option ℚ
  visibility : Option ℚ
  timezone : Option Int
deriving DecidableEq, Repr

/-- What `format_weather_data` returns when it does not raise: the full
record, or one of its two `{"error": ...}` markers. -/
inductive FormatOut where
  | full (fw : FormattedWeather)
  | errMarker (msg : String)
deriving DecidableEq, Repr

/-- The `try`-block body of `format_weather_data`, with required-key reads
(`KeyError`) and the `weather[0]` subscript (`IndexError`) in source
evaluation order. -/
def fmtBody (d : Payload) : Except PyErr FormattedWeather := do
  let mainB ← getK d.main
  let temp_c ← getK mainB.temp
  let temp_f := temp_c * 9 / 5 + 32
  let humidity ← getK mainB.humidity
  let wlist ← getK d.weather
  let w0 ← idx0 wlist
  let description ← getK w0.description
  let windB ← getK d.wind
  let wind_speed ← getK windB.speed
  let wind_speed_mph := wind_speed * 2.237
  let location_info : LocationInfo :=
    { city := d.name
      country := (d.sys.map SysBlock.country).join
      lat := (d.coord.map CoordBlock.lat).join
      lon := (d.coord.map CoordBlock.lon).join }
  let feels ← getK mainB.feels_like
  let cmain ← getK w0.wmain
  let icon ← getK w0.icon
  pure
    { location := location_info
      temperature :=
        { celsius := pyRound 1 temp_c
          fahrenheit := pyRound 1 temp_f
          feels_like_c := pyRound 1 feels
          feels_like_f := pyRound 1 (feels * 9 / 5 + 32) }
      humidity := humidity
      conditions := { cmain := cmain, description := description, icon_code := icon }
      wind :=
        { speed_ms := pyRound 2 wind_speed
          speed_mph := pyRound 2 wind_speed_mph
          direction_degrees := (d.wind.map WindBlock.deg).join
          gust_ms := (d.wind.map WindBlock.gust).join }
      pressure := mainB.pressure
      visibility := d.visibility
      timezone := d.timezone }

/-- `WeatherAgent.format_weather_data`: empty dict or an `"error"` key give
the unavailable marker; inside the `try` block only `KeyError` is caught
(yielding the formatting-error marker); an `IndexError` from `weather[0]`
propagates. -/
def format_weather_data (d : Payload) : Except PyErr FormatOut :=
  if d.isEmptyP || d.errKey then
    .ok (.errMarker "Weather data currently unavailable")
  else
    match fmtBody d with
    | .ok fw => .ok (.full fw)
    | .error .keyError => .ok (.errMarker "Error formatting weather data")
    | .error .indexError => .error .indexError

/-! ## Confidence score and token usage -/

/-- The fraction of the required fields `main`, `weather`, `wind` present in
a raw payload. -/
def completenessFrac (d : Payload) : ℚ :=
  (((if d.main.isSome then 1 else 0) + (if d.weather.isSome then 1 else 0)
    + (if d.wind.isSome then 1 else 0) : ℚ)) / 3

/-- The final step of `calculate_confidence_score`:
`round(sum(factors), 2) if factors else 0.5`. -/
def confidence_from_factors (factors : List ℚ) : ℚ :=
  if factors.isEmpty then 0.5 else pyRound 2 factors.sum

/-- `WeatherAgent.calculate_confidence_score` (the unused
`claude_response` argument is dropped): a freshness factor when the payload
is truthy and carries `dt`, a completeness factor when the payload is
truthy, and a response-time factor always. -/
def calculate_confidence_score (now : Int) (weather_data : Option Payload)
    (response_time : Int) : ℚ :=
  let freshnessFactors : List ℚ :=
    match weather_data with
    | some d =>
        if d.truthy then
          match d.dt with
          | some t =>
              let data_age : ℚ := (now : ℚ) - (t : ℚ)
              [max 0 (1 - data_age / 3600) * 0.4]
          | none => []
        else []
    | none => []
  let completenessFactors : List ℚ :=
    match weather_data with
    | some d => if d.truthy then [completenessFrac d * 0.4] else []
    | none => []
  let response_time_score : ℚ := max 0 (1 - (response_time : ℚ) / 2000)
  let factors := freshnessFactors ++ completenessFactors ++ [response_time_score * 0.2]
  confidence_from_factors factors

/-- A response from the language-model client as the agents consume it:
the extracted text, the `str(...)` rendering of its content (used by the
token-usage fallback), and the optional `usage` metadata
`(input_tokens, output_tokens)`; `none` models missing/malformed usage. -/
structure LLMResp where
  text : String
  contentRepr : String
  usage : Option (Int × Int)
deriving DecidableEq, Repr

/-- The `"usage"` block of a response envelope. -/
structure UsageInfo where
  total_tokens : Int
  input_tokens : Option Int
  output_tokens : Option Int
  billable_tokens : Int
  estimation_method : Option String
deriving DecidableEq, Repr

/-- `WeatherAgent.estimate_tokens`: `len(text.split())` (word count). -/
def estimate_tokens_weather (text : String) : Nat :=
  (splitWs text.data).length

/-- `WeatherAgent.calculate_token_usage`: provider-reported counts when
present, otherwise a word-count estimate flagged as such. -/
def calculate_token_usage (resp : LLMResp) : UsageInfo :=
  match resp.usage with
  | some (i, o) =>
      { total_tokens := i + o, input_tokens := some i, output_tokens := some o,
        billable_tokens := i + o, estimation_method := none }
  | none =>
      let est : Int := estimate_tokens_weather resp.contentRepr
      { total_tokens := est, input_tokens := none, output_tokens := none,
        billable_tokens := est,
        estimation_method := some "word_count_approximation" }

/-! ## The weather agent's `process_query` -/

/-- Mutable per-instance state of a `WeatherAgent`. -/
structure AgentState where
  rate_limit : RateLimit
  last_location : Option Location
deriving DecidableEq, Repr

/-- The `WeatherAgent` state right after `__init__`. -/
def init_agent_state (now : Int) : AgentState :=
  { rate_limit := init_rate_limit now, last_location := none }

/-- The external world as `process_query` observes it during one call:
the weather provider (`http city = .error _` is a transport exception,
`.ok (status, body)` an HTTP response), the measured provider latency and
total latency, the current time, the Claude fallback of
`extract_location`, and the texts/messages produced by the four
language-model interactions.  Modelling note: the chat/report
`messages.create` calls are taken to return without raising. -/
structure WeatherEnv where
  http : String → Except String (Nat × Payload)
  apiTime : Int
  totalTime : Int
  now : Int
  llmExtract : String → Option Location
  nonWeatherText : String
  chatText : String
  chatMsg : LLMResp
  reportMsg : LLMResp

/-- `WeatherAgent.get_weather_data`: empty city short-circuits; a transport
error or non-200 status yields `(none, elapsed-or-zero, true)`; a 200
response yields its JSON body. -/
def get_weather_data (env : WeatherEnv) (location : Location) :
    Option Payload × Int × Bool :=
  let city := String.mk (pstrip location.city.data)
  if city = "" then (none, 0, true)
  else
    match env.http city with
    | .error _ => (none, 0, true)
    | .ok (status, body) =>
        if status = 200 then (some body, env.apiTime, false)
        else (none, env.apiTime, true)

/-- The `"response"` block of a weather-agent envelope. -/
structure RespBlock where
  text : String
  rtype : String
  confidence_score : ℚ
  data_freshness : String
  fallback_used : Bool
  location_context : Option String
deriving DecidableEq, Repr

/-- The `"query"` echo block of a weather-agent envelope
(`is_weather_related` is present only on the off-topic and chat shapes). -/
structure QueryBlock where
  text : String
  is_weather_related : Option Bool
  extracted_location : Option (Option Location)
deriving DecidableEq, Repr

/-- A weather-agent response envelope.  `Option` marks keys that some
return shapes omit; pure metadata (request id, ISO timestamps, version
string, response-time figures) is elided. -/
structure Envelope where
  error : Option String
  weather_data : Option FormatOut
  response : Option RespBlock
  usage : Option UsageInfo
  rate_limit : Option RateLimit
  query : Option QueryBlock
deriving DecidableEq, Repr

/-- The error envelope `{"error": "Could not determine location from query"}`. -/
def locErrorEnvelope : Envelope :=
  { error := some "Could not determine location from query",
    weather_data := none, response := none, usage := none,
    rate_limit := none, query := none }

/-- The off-topic envelope (source lines 291–323). -/
def offTopicEnvelope (env : WeatherEnv) (query : String) (rl : RateLimit) :
    Envelope :=
  { error := none
    weather_data := none
    response := some
      { text := env.nonWeatherText, rtype := "off_topic_response",
        confidence_score := 1, data_freshness := "N/A",
        fallback_used := false, location_context := none }
    usage := some
      { total_tokens := 0, input_tokens := some 0, output_tokens := some 0,
        billable_tokens := 0, estimation_method := some "no_tokens_used" }
    rate_limit := some rl
    query := some
      { text := query, is_weather_related := some false,
        extracted_location := some none } }

/-- The `data_freshness` string of the report envelope:
`f"{x} seconds ago" if data_freshness else "unknown"` (note `0` is falsy). -/
def freshnessText (freshness : Option Int) : String :=
  match freshness with
  | some x => if x = 0 then "unknown" else toString x ++ " seconds ago"
  | none => "unknown"

/-- The tail of `WeatherAgent.process_query` from the weather fetch
onwards (source lines 341–432), for a resolved `location` and the instance
state `st1` after the `last_location` cache update: fetch and format the
weather, then build the chat or report envelope.  Named separately so the
branches can be reasoned about in isolation; `process_query` below glues
it to classification and location resolution. -/
def process_located (env : WeatherEnv) (query : String) (location : Location)
    (st1 : AgentState) : Except PyErr Envelope × AgentState :=
  let (weather_data, _api_response_time, fallback_used) :=
    get_weather_data env location
  let rawArg : Payload :=
    match weather_data with
    | some d => if d.truthy then d else emptyPayload
    | none => emptyPayload
  match format_weather_data rawArg with
  | .error e => (.error e, st1)
  | .ok formatted_weather =>
      if is_weather_related query && !is_weather_query query then
        let token_usage := calculate_token_usage env.chatMsg
        let rl := update_rate_limit env.now st1.rate_limit
        (.ok
          { error := none
            weather_data := some formatted_weather
            response := some
              { text := env.chatText, rtype := "weather_chat",
                confidence_score := 0.8,
                data_freshness := "chat response",
                fallback_used := fallback_used,
                location_context := some
                  (if st1.last_location = some location then "cached"
                   else "new") }
            usage := some token_usage
            rate_limit := some rl
            query := some
              { text := query, is_weather_related := some true,
                extracted_location := some (some location) } },
         { st1 with rate_limit := rl })
      else
        let data_freshness : Option Int :=
          match weather_data with
          | some d =>
              if d.truthy then (d.dt.map fun t => env.now - t) else none
          | none => none
        let confidence_score :=
          calculate_confidence_score env.now weather_data env.totalTime
        let token_usage := calculate_token_usage env.reportMsg
        let rl := update_rate_limit env.now st1.rate_limit
        (.ok
          { error := none
            weather_data := some formatted_weather
            response := some
              { text := env.reportMsg.text, rtype := "weather_report",
                confidence_score := confidence_score,
                data_freshness := freshnessText data_freshness,
                fallback_used := fallback_used,
                location_context := none }
            usage := some token_usage
            rate_limit := some rl
            query := some
              { text := query, is_weather_related := none,
                extracted_location := some (some location) } },
         { st1 with rate_limit := rl })

/-- `WeatherAgent.process_query`.  Returns the (possibly raised-out-of)
result together with the instance state after the call; an uncaught
`IndexError` from `format_weather_data` appears as `.error` while state
mutations already performed (the `last_location` cache) persist. -/
def process_query (env : WeatherEnv) (st : AgentState) (query : String) :
    Except PyErr Envelope × AgentState :=
  let is_direct_weather_query := is_weather_query query
  let is_weather_chat := is_weather_related query
  if !(is_direct_weather_query || is_weather_chat) then
    let rl := update_rate_limit env.now st.rate_limit
    (.ok (offTopicEnvelope env query rl), { st with rate_limit := rl })
  else
    let location? := extract_location env.llmExtract query
    let resolved : Option (Location × AgentState) :=
      match location? with
      | some loc => some (loc, { st with last_location := some loc })
      | none =>
          if st.last_location.isSome && is_weather_chat
              && !is_direct_weather_query then
            match st.last_location with
            | some cached => some (cached, st)
            | none => none
          else if is_direct_weather_query then none
          else some (⟨"general"⟩, st)
    match resolved with
    | none => (.ok locErrorEnvelope, st)
    | some (location, st1) => process_located env query location st1

/-! ## The language agent -/

/-- `LanguageAgent.MIN_INPUT_TOKENS`. -/
def MIN_INPUT_TOKENS : Nat := 1

/-- `LanguageAgent.MAX_TOTAL_TOKENS`. -/
def MAX_TOTAL_TOKENS : Nat := 200000

/-- `LanguageAgent.estimate_tokens`: `max(1, len(text) // 4)`. -/
def estimate_tokens_lang (text : String) : Nat :=
  max 1 (text.length / 4)

/-- `LanguageAgent.validate_input_length`. -/
def validate_input_length (text : String) : Bool :=
  MIN_INPUT_TOKENS ≤ estimate_tokens_lang text
    && estimate_tokens_lang text ≤ MAX_TOTAL_TOKENS

/-- `LanguageAgent.calculate_token_usage`: like the weather agent's, but the
fallback estimate uses the characters-over-four heuristic. -/
def calculate_token_usage_lang (resp : LLMResp) : UsageInfo :=
  match resp.usage with
  | some (i, o) =>
      { total_tokens := i + o, input_tokens := some i, output_tokens := some o,
        billable_tokens := i + o, estimation_method := none }
  | none =>
      let est : Int := estimate_tokens_lang resp.contentRepr
      { total_tokens := est, input_tokens := none, output_tokens := none,
        billable_tokens := est,
        estimation_method := some "word_count_approximation" }

/-- The `"response"` block of a language-agent envelope. -/
structure LangRespBlock where
  text : String
  rtype : String
  language : String
deriving DecidableEq, Repr

/-- A language-agent response envelope (metadata timestamps elided). -/
structure LangEnvelope where
  error : Option String
  response : Option LangRespBlock
  usage : Option UsageInfo
  rate_limit : Option RateLimit
  query : Option (String × String)
deriving DecidableEq, Repr

/-- The validation-failure envelope of `LanguageAgent.process_query`. -/
def langValidationError : LangEnvelope :=
  { error := some ("Input text must be between " ++ toString MIN_INPUT_TOKENS
      ++ " and " ++ toString MAX_TOTAL_TOKENS ++ " tokens"),
    response := none, usage := none, rate_limit := none, query := none }

/-- `LanguageAgent.process_query`: validate the input length (no model call
on failure), invoke the model (`llm language user_input`; `.error e` models
a raised exception, caught by the outer handler and stringified), then
account usage and rate limit.  Returns the envelope together with the
rate-limit state after the call. -/
def language_process_query (llm : String → String → Except String LLMResp)
    (now : Int) (rl : RateLimit) (user_input language : String) :
    LangEnvelope × RateLimit :=
  if !validate_input_length user_input then (langValidationError, rl)
  else
    match llm language user_input with
    | .error e =>
        ({ error := some e, response := none, usage := none,
           rate_limit := none, query := none }, rl)
    | .ok message =>
        let token_usage := calculate_token_usage_lang message
        let rl2 := update_rate_limit now rl
        ({ error := none
           response := some
             { text := message.text, rtype := "language_response",
               language := language }
           usage := some token_usage
           rate_limit := some rl2
           query := some (user_input, language) }, rl2)

/-! ## Concrete fixtures used by witnesses and counterexamples -/

/-- A fixed language-model response used in concrete runs. -/
def llm0 : LLMResp := { text := "T", contentRepr := "C", usage := some (3, 4) }

/-- An environment whose weather provider answers every request with a
404 status and whose Claude extraction fallback finds nothing. -/
def env404 : WeatherEnv :=
  { http := fun _ => .ok (404, emptyPayload), apiTime := 5, totalTime := 7,
    now := 0, llmExtract := fun _ => none, nonWeatherText := "off",
    chatText := "chat", chatMsg := llm0, reportMsg := llm0 }

/-- The agent state right after `__init__` at time 0. -/
def st0 : AgentState := init_agent_state 0

/-- An input of 800004 characters: its 4-chars-per-token estimate is
200001, above `MAX_TOTAL_TOKENS`. -/
def bigText : String := String.mk (List.replicate 800004 'a')

/-- A complete raw payload with the given temperature (°C) and wind speed
(m/s); every key `format_weather_data` requires is present. -/
def mkTempWindPayload (c ms : ℚ) : Payload :=
  { main := some { temp := some c, humidity := some 50, feels_like := some c,
                   pressure := some 1000 }
    weather := some [{ wmain := some "Clear", description := some "clear sky",
                       icon := some "01d" }]
    wind := some { speed := some ms, deg := some 10, gust := none }
    name := some "Testville", sys := some { country := some "GB" }
    coord := some { lat := some 0, lon := some 0 }
    visibility := some 10000, timezone := some 0, dt := some 0
    errKey := false, extraKeys := false }

/-- The `fahrenheit` field of a formatting result, when one was produced. -/
def fahrenheitOf (r : Except PyErr FormatOut) : Option ℚ :=
  match r with
  | .ok (.full fw) => some fw.temperature.fahrenheit
  | _ => none

/-- The `speed_mph` field of a formatting result, when one was produced. -/
def mphOf (r : Except PyErr FormatOut) : Option ℚ :=
  match r with
  | .ok (.full fw) => some fw.wind.speed_mph
  | _ => none

/-- A complete payload whose `dt` lies one hour in the future of time 0. -/
def futureDtPayload : Payload :=
  { mkTempWindPayload 20 5 with dt := some 3600 }

/-- A payload whose `weather` key holds an empty array (every other
required key present). -/
def emptyWeatherListPayload : Payload :=
  { mkTempWindPayload 20 5 with weather := some [] }

/-- The completeness fraction of an optional payload (`0` for `None`). -/
def completenessOf : Option Payload → ℚ
  | some d => completenessFrac d
  | none => 0

/-- The weather-report envelope produced when the provider returned no
usable payload (`weather_data` carries the unavailable marker and
`fallback_used` is set). -/
def reportFailEnvelope (env : WeatherEnv) (q : String) (loc : Location)
    (rl : RateLimit) : Envelope :=
  { error := none
    weather_data := some (.errMarker "Weather data currently unavailable")
    response := some
      { text := env.reportMsg.text, rtype := "weather_report",
        confidence_score := calculate_confidence_score env.now none env.totalTime,
        data_freshness := "unknown", fallback_used := true,
        location_context := none }
    usage := some (calculate_token_usage env.reportMsg)
    rate_limit := some rl
    query := some
      { text := q, is_weather_related := none,
        extracted_location := some (some loc) } }

/-! ## Rate-limit lemmas and claims C3, C7, C10 -/

theorem update_rate_limit_no_reset (now L R T : Int) (h : now < T) :
    update_rate_limit now ⟨L, R, T⟩ = ⟨L, R - 1, T⟩ := by
  have h2 : ¬(now ≥ T) := not_le.mpr h
  by_cases hr : R - 1 ≤ 0
  · simp [update_rate_limit, hr, h2]
  · simp [update_rate_limit, hr]

theorem update_rate_limit_iter (now T L : Int) (h : now < T) :
    ∀ (n : ℕ) (R : Int),
      (update_rate_limit now)^[n] ⟨L, R, T⟩ = ⟨L, R - n, T⟩ := by
  intro n
  induction n with
  | zero => intro R; simp
  | succ k ih =>
      intro R
      rw [Function.iterate_succ_apply, update_rate_limit_no_reset now L R T h,
        ih (R - 1)]
      congr 1
      push_cast
      ring

/-- C3 counterexample: starting from the freshly initialised rate limit and
making `limit + 1 = 100001` calls inside the hour leaves `remaining = -1`,
strictly below zero — the counter does go below zero. -/
theorem c3_counterexample :
    ((update_rate_limit 0)^[100001] (init_rate_limit 0)).remaining < 0 := by
  have h0 : init_rate_limit 0 = ⟨100000, 100000, 3600⟩ := rfl
  rw [h0, update_rate_limit_iter 0 3600 100000 (by norm_num) 100001 100000]
  norm_num

/-- C3 (amended): within the hour each call decrements `remaining` by one,
continuing below zero past the limit; after exactly `limit` calls from a
full counter `remaining = 0`; and a call at or after `reset_at` whose
decremented value is `≤ 0` refills `remaining` to `limit` and moves
`reset_at` to one hour after the call time. -/
theorem c3_amended :
    (∀ (L R T now : Int) (n : ℕ), now < T →
        (update_rate_limit now)^[n] ⟨L, R, T⟩ = ⟨L, R - n, T⟩) ∧
    (∀ (L : ℕ) (T now : Int), now < T →
        ((update_rate_limit now)^[L] ⟨(L : Int), (L : Int), T⟩).remaining = 0) ∧
    (∀ (L r T now : Int), T ≤ now → r ≤ 1 →
        update_rate_limit now ⟨L, r, T⟩ = ⟨L, L, now + 3600⟩) := by
  refine ⟨fun L R T now n h => update_rate_limit_iter now T L h n R, ?_, ?_⟩
  · intro L T now h
    rw [update_rate_limit_iter now T (L : Int) h L (L : Int)]
    simp
  · intro L r T now h1 h2
    unfold update_rate_limit
    simp [show r - 1 ≤ 0 by omega, show now ≥ T from h1]

/-- C3 witness: with limit 2, two calls inside the hour exhaust the
counter, and a third call at the reset time refills it to 2 with the reset
pushed an hour past the call. -/
theorem c3_witness :
    ((update_rate_limit 0)^[2] ⟨2, 2, 10⟩).remaining = 0 ∧
    update_rate_limit 10 ⟨2, 0, 10⟩ = ⟨2, 2, 3610⟩ := by
  constructor
  · exact c3_amended.2.1 2 10 0 (by norm_num)
  · have h := c3_amended.2.2 2 0 10 10 (by norm_num) (by norm_num)
    simpa using h

/-- C7: when the 4-characters-per-token estimate of the input falls outside
`[1, 200000]`, the language agent returns the fixed validation-error
envelope and leaves the rate limit untouched, with a result that does not
depend on the language-model oracle at all (no model call is made). -/
theorem c7_reject_out_of_range :
    ∀ (llm : String → String → Except String LLMResp) (now : Int)
      (rl : RateLimit) (s lang : String),
      ¬(1 ≤ estimate_tokens_lang s ∧ estimate_tokens_lang s ≤ 200000) →
      language_process_query llm now rl s lang = (langValidationError, rl) := by
  intro llm now rl s lang h
  have hv : validate_input_length s = false := by
    rw [Bool.eq_false_iff]
    intro hv
    exact h (by simpa [validate_input_length, MIN_INPUT_TOKENS,
      MAX_TOTAL_TOKENS] using hv)
  simp [language_process_query, hv]

/-- C7 witness: an 800004-character input estimates to 200001 tokens and is
rejected with the validation envelope. -/
theorem c7_witness :
    ¬(1 ≤ estimate_tokens_lang bigText ∧ estimate_tokens_lang bigText ≤ 200000) ∧
    language_process_query (fun _ _ => .ok llm0) 0 (init_rate_limit 0) bigText
      "en" = (langValidationError, init_rate_limit 0) := by
  have hlen : bigText.length = 800004 := List.length_replicate 800004 'a'
  have hest : estimate_tokens_lang bigText = 200001 := by
    unfold estimate_tokens_lang
    rw [hlen]
    decide
  have h : ¬(1 ≤ estimate_tokens_lang bigText ∧
      estimate_tokens_lang bigText ≤ 200000) := by
    rw [hest]; omega
  exact ⟨h, c7_reject_out_of_range _ 0 _ bigText "en" h⟩

/-- C10: the token estimate is always at least 1, so the minimum bound can
never fail: the empty input passes validation and its processing invokes
the model (the success envelope is built from the oracle's response and the
rate limit is decremented); validation fails exactly when the estimate
exceeds the 200000 maximum. -/
theorem c10_min_bound_never_fails :
    (∀ s : String, 1 ≤ estimate_tokens_lang s) ∧
    validate_input_length "" = true ∧
    (∀ (resp : LLMResp) (now : Int) (rl : RateLimit) (lang : String),
        language_process_query (fun _ _ => .ok resp) now rl "" lang =
          ({ error := none
             response := some { text := resp.text, rtype := "language_response",
                                language := lang }
             usage := some (calculate_token_usage_lang resp)
             rate_limit := some (update_rate_limit now rl)
             query := some ("", lang) }, update_rate_limit now rl)) ∧
    (∀ s : String, validate_input_length s = false ↔
        200000 < estimate_tokens_lang s) := by
  have hge : ∀ s : String, 1 ≤ estimate_tokens_lang s :=
    fun s => le_max_left 1 (s.length / 4)
  refine ⟨hge, by decide, ?_, ?_⟩
  · intro resp now rl lang
    have hv : validate_input_length "" = true := by decide
    simp [language_process_query, hv]
  · intro s
    constructor
    · intro hf
      have h1 := hge s
      by_contra hgt
      have hle : estimate_tokens_lang s ≤ 200000 := by omega
      have : validate_input_length s = true := by
        simp [validate_input_length, MIN_INPUT_TOKENS, MAX_TOTAL_TOKENS, h1, hle]
      rw [this] at hf
      exact Bool.true_eq_false.mp hf
    · intro hgt
      rw [Bool.eq_false_iff]
      intro hv
      have := (by simpa [validate_input_length, MIN_INPUT_TOKENS,
        MAX_TOTAL_TOKENS] using hv : 1 ≤ estimate_tokens_lang s ∧
          estimate_tokens_lang s ≤ 200000)
      omega

/-! ## Rounding lemmas and claim C5 -/

theorem rhe_nonneg (x : ℚ) (h : 0 ≤ x) : 0 ≤ rhe x := by
  have hf : 0 ≤ ⌊x⌋ := Int.floor_nonneg.mpr h
  simp only [rhe]
  split_ifs <;> omega

theorem rhe_le_add_half (x : ℚ) : (rhe x : ℚ) ≤ x + 1 / 2 := by
  have hle : (⌊x⌋ : ℚ) ≤ x := Int.floor_le x
  have hlt : x < ⌊x⌋ + 1 := Int.lt_floor_add_one x
  simp only [rhe]
  split_ifs with h1 h2 h3 <;> push_cast <;> linarith

theorem pyRound_two_bounds (x : ℚ) (h0 : 0 ≤ x) (h1 : x ≤ 1) :
    0 ≤ pyRound 2 x ∧ pyRound 2 x ≤ 1 := by
  have hlo : 0 ≤ rhe (x * 10 ^ 2) := rhe_nonneg _ (by positivity)
  have hhi : rhe (x * 10 ^ 2) ≤ 100 := by
    have hr1 : rhe (x * 10 ^ 2) ≤ ⌊x * 10 ^ 2 + 1 / 2⌋ :=
      Int.le_floor.mpr (rhe_le_add_half (x * 10 ^ 2))
    have hr2 : ⌊x * 10 ^ 2 + 1 / 2⌋ ≤ ⌊(201 / 2 : ℚ)⌋ :=
      Int.floor_mono (by nlinarith)
    have hr3 : ⌊(201 / 2 : ℚ)⌋ = 100 := by norm_num
    omega
  constructor
  · unfold pyRound
    positivity
  · unfold pyRound
    rw [div_le_one (by norm_num)]
    calc (rhe (x * 10 ^ 2) : ℚ) ≤ 100 := by exact_mod_cast hhi
      _ ≤ 10 ^ 2 := by norm_num

theorem confidence_from_nonempty (l : List ℚ) (hne : l ≠ [])
    (h0 : 0 ≤ l.sum) (h1 : l.sum ≤ 1) :
    0 ≤ confidence_from_factors l ∧ confidence_from_factors l ≤ 1 := by
  unfold confidence_from_factors
  rw [if_neg (by simp [hne])]
  exact pyRound_two_bounds _ h0 h1

theorem completenessFrac_bounds (d : Payload) :
    0 ≤ completenessFrac d ∧ completenessFrac d ≤ 1 := by
  unfold completenessFrac
  split_ifs <;> norm_num

theorem completenessFrac_of_empty (d : Payload) (h : d.isEmptyP = true) :
    completenessFrac d = 0 := by
  have hm : d.main = none := by
    simp [Payload.isEmptyP, Option.isNone_iff_eq_none] at h; tauto
  have hw : d.weather = none := by
    simp [Payload.isEmptyP, Option.isNone_iff_eq_none] at h; tauto
  have hwd : d.wind = none := by
    simp [Payload.isEmptyP, Option.isNone_iff_eq_none] at h; tauto
  simp [completenessFrac, hm, hw, hwd]

/-- C5 counterexample: a complete payload whose `dt` lies one hour in the
future (and response time 0) scores `1.8`, outside `[0, 1]` — the score is
not bounded by 1 for every payload. -/
theorem c5_counterexample :
    1 < calculate_confidence_score 0 (some futureDtPayload) 0 := by
  have ht : futureDtPayload.truthy = true := by decide
  have hdt : futureDtPayload.dt = some 3600 := rfl
  have hfrac : completenessFrac futureDtPayload = 1 := by
    norm_num [completenessFrac, futureDtPayload, mkTempWindPayload]
  have hs : calculate_confidence_score 0 (some futureDtPayload) 0 =
      confidence_from_factors
        [max 0 (1 - ((0 : ℚ) - (3600 : ℚ)) / 3600) * 0.4,
         completenessFrac futureDtPayload * 0.4,
         max 0 (1 - (0 : ℚ) / 2000) * 0.2] := by
    simp [calculate_confidence_score, ht, hdt]
  have hval : calculate_confidence_score 0 (some futureDtPayload) 0 =
      pyRound 2 (7 / 5) := by
    rw [hs, hfrac]
    simp [confidence_from_factors]
    congr 1
    norm_num
  rw [hval]
  norm_num [pyRound, rhe]

/-- C5 (amended): the score lies in `[0, 1]` for every payload whose `dt`
does not lie in the future and every nonnegative response time; with no
`dt` field and response time 0 it equals
`round(0.4 * completeness + 0.2, 2)`; and the no-factors default of the
final expression is 0.5 (unreachable in `calculate_confidence_score`
itself, since the response-time factor is always included). -/
theorem c5_amended :
    ∀ (now rt : Int) (wd : Option Payload),
      (0 ≤ rt → (∀ d t, wd = some d → d.dt = some t → t ≤ now) →
        0 ≤ calculate_confidence_score now wd rt ∧
          calculate_confidence_score now wd rt ≤ 1) ∧
      ((∀ d, wd = some d → d.dt = none) → rt = 0 →
        calculate_confidence_score now wd rt =
          pyRound 2 (0.4 * completenessOf wd + 0.2)) ∧
      confidence_from_factors [] = 0.5 := by
  intro now rt wd
  refine ⟨?_, ?_, rfl⟩
  · intro hrt hdt
    have hrtq : (0 : ℚ) ≤ (rt : ℚ) := by exact_mod_cast hrt
    have hr0 : 0 ≤ max 0 (1 - (rt : ℚ) / 2000) := le_max_left _ _
    have hr1 : max 0 (1 - (rt : ℚ) / 2000) ≤ 1 := by
      apply max_le (by norm_num)
      have : 0 ≤ (rt : ℚ) / 2000 := by positivity
      linarith
    cases wd with
    | none =>
        apply confidence_from_nonempty _ (by simp)
          <;> simp [calculate_confidence_score] <;> nlinarith
    | some d =>
        by_cases ht : d.truthy
        · have hc0 := (completenessFrac_bounds d).1
          have hc1 := (completenessFrac_bounds d).2
          cases hdtv : d.dt with
          | none =>
              have : calculate_confidence_score now (some d) rt =
                  confidence_from_factors
                    [completenessFrac d * 0.4, max 0 (1 - (rt : ℚ) / 2000) * 0.2] := by
                simp [calculate_confidence_score, ht, hdtv]
              rw [this]
              apply confidence_from_nonempty _ (by simp) <;> simp <;> nlinarith
          | some t =>
              have hage : (0 : ℚ) ≤ (now : ℚ) - (t : ℚ) := by
                have := hdt d t rfl hdtv
                have : (t : ℚ) ≤ (now : ℚ) := by exact_mod_cast this
                linarith
              have hf0 : 0 ≤ max 0 (1 - ((now : ℚ) - (t : ℚ)) / 3600) :=
                le_max_left _ _
              have hf1 : max 0 (1 - ((now : ℚ) - (t : ℚ)) / 3600) ≤ 1 := by
                apply max_le (by norm_num)
                have : 0 ≤ ((now : ℚ) - (t : ℚ)) / 3600 := by positivity
                linarith
              have : calculate_confidence_score now (some d) rt =
                  confidence_from_factors
                    [max 0 (1 - ((now : ℚ) - (t : ℚ)) / 3600) * 0.4,
                     completenessFrac d * 0.4,
                     max 0 (1 - (rt : ℚ) / 2000) * 0.2] := by
                simp [calculate_confidence_score, ht, hdtv]
              rw [this]
              apply confidence_from_nonempty _ (by simp) <;> simp <;> nlinarith
        · have : calculate_confidence_score now (some d) rt =
              confidence_from_factors [max 0 (1 - (rt : ℚ) / 2000) * 0.2] := by
            simp [calculate_confidence_score, ht]
          rw [this]
          apply confidence_from_nonempty _ (by simp) <;> simp <;> nlinarith
  · intro hdt hrt0
    subst hrt0
    cases wd with
    | none =>
        have : calculate_confidence_score now none 0 =
            pyRound 2 (max 0 (1 - (0 : ℚ) / 2000) * 0.2) := by
          simp [calculate_confidence_score, confidence_from_factors]
        rw [this, show completenessOf none = 0 from rfl]
        congr 1
        norm_num
    | some d =>
        have hdn : d.dt = none := hdt d rfl
        by_cases ht : d.truthy
        · have : calculate_confidence_score now (some d) 0 =
              pyRound 2 (completenessFrac d * 0.4 + max 0 (1 - (0 : ℚ) / 2000) * 0.2) := by
            simp [calculate_confidence_score, confidence_from_factors, ht, hdn]
          rw [this]
          have harg : completenessFrac d * 0.4 + max 0 (1 - (0 : ℚ) / 2000) * 0.2 =
              0.4 * completenessOf (some d) + 0.2 := by
            rw [show max 0 (1 - (0 : ℚ) / 2000) = 1 by norm_num]
            show completenessFrac d * 0.4 + 1 * 0.2 = 0.4 * completenessFrac d + 0.2
            ring
          rw [harg]
        · have hempty : d.isEmptyP = true := by
            revert ht
            unfold Payload.truthy
            cases d.isEmptyP <;> simp
          have : calculate_confidence_score now (some d) 0 =
              pyRound 2 (max 0 (1 - (0 : ℚ) / 2000) * 0.2) := by
            simp [calculate_confidence_score, confidence_from_factors, ht]
          rw [this]
          rw [show completenessOf (some d) = 0 from completenessFrac_of_empty d hempty]
          norm_num

/-- C5 witness: at `now = 0`, no payload and response time 0, the score is
within `[0, 1]` and equals `round(0.4 * 0 + 0.2, 2)`. -/
theorem c5_witness :
    (0 ≤ calculate_confidence_score 0 none 0 ∧
      calculate_confidence_score 0 none 0 ≤ 1) ∧
    calculate_confidence_score 0 none 0 = pyRound 2 (0.4 * completenessOf none + 0.2) := by
  have h := c5_amended 0 0 none
  exact ⟨h.1 (le_refl 0) (fun d t hd => nomatch hd),
    h.2.1 (fun d hd => nomatch hd) rfl⟩

/-! ## Formatting lemmas and claims C8, C6 -/

@[simp] theorem except_bind_ok {ε α β : Type} (a : α) (f : α → Except ε β) :
    (Except.ok a : Except ε α) >>= f = f a := rfl

@[simp] theorem except_bind_error {ε α β : Type} (e : ε) (f : α → Except ε β) :
    (Except.error e : Except ε α) >>= f = Except.error e := rfl

@[simp] theorem except_map_ok {ε α β : Type} (a : α) (f : α → β) :
    f <$> (Except.ok a : Except ε α) = Except.ok (f a) := rfl

@[simp] theorem except_map_error {ε α β : Type} (e : ε) (f : α → β) :
    f <$> (Except.error e : Except ε α) = Except.error e := rfl

theorem format_mkTempWindPayload (c ms : ℚ) :
    format_weather_data (mkTempWindPayload c ms) = .ok (.full
      { location := { city := some "Testville", country := some "GB",
                      lat := some 0, lon := some 0 }
        temperature :=
          { celsius := pyRound 1 c, fahrenheit := pyRound 1 (c * 9 / 5 + 32),
            feels_like_c := pyRound 1 c,
            feels_like_f := pyRound 1 (c * 9 / 5 + 32) }
        humidity := 50
        conditions :=
          { cmain := "Clear", description := "clear sky", icon_code := "01d" }
        wind := { speed_ms := pyRound 2 ms, speed_mph := pyRound 2 (ms * 2.237),
                  direction_degrees := some 10, gust_ms := none }
        pressure := some 1000, visibility := some 10000,
        timezone := some 0 }) := rfl

/-- C8 counterexample: for `temp_c = 0.05` the formatted `fahrenheit` field
is `32.1`, not the unrounded `0.05 * 9/5 + 32 = 32.09` — the output is the
conversion rounded to 1 decimal, not the raw formula value. -/
theorem c8_counterexample :
    fahrenheitOf (format_weather_data (mkTempWindPayload (1 / 20) 10)) =
      some (321 / 10) ∧ (321 / 10 : ℚ) ≠ (1 / 20) * 9 / 5 + 32 := by
  constructor
  · rw [format_mkTempWindPayload]
    unfold fahrenheitOf
    norm_num [pyRound, rhe]
  · norm_num

/-- C8 (amended): the formatted temperature is
`round(celsius * 9/5 + 32, 1)` (one decimal) and the wind speed is
`round(ms * 2.237, 2)`; at `temp_c = 0` this gives exactly 32.0, at
`temp_c = 100` exactly 212.0, and at `speed_ms = 10` exactly 22.37. -/
theorem c8_amended :
    (∀ c ms : ℚ,
      fahrenheitOf (format_weather_data (mkTempWindPayload c ms)) =
        some (pyRound 1 (c * 9 / 5 + 32)) ∧
      mphOf (format_weather_data (mkTempWindPayload c ms)) =
        some (pyRound 2 (ms * 2.237))) ∧
    fahrenheitOf (format_weather_data (mkTempWindPayload 0 10)) = some 32 ∧
    fahrenheitOf (format_weather_data (mkTempWindPayload 100 10)) = some 212 ∧
    mphOf (format_weather_data (mkTempWindPayload 10 10)) = some (2237 / 100) := by
  have hgen : ∀ c ms : ℚ,
      fahrenheitOf (format_weather_data (mkTempWindPayload c ms)) =
        some (pyRound 1 (c * 9 / 5 + 32)) ∧
      mphOf (format_weather_data (mkTempWindPayload c ms)) =
        some (pyRound 2 (ms * 2.237)) := by
    intro c ms
    rw [format_mkTempWindPayload]
    exact ⟨rfl, rfl⟩
  refine ⟨hgen, ?_, ?_, ?_⟩
  · rw [(hgen 0 10).1]
    norm_num [pyRound, rhe]
  · rw [(hgen 100 10).1]
    norm_num [pyRound, rhe]
  · rw [(hgen 10 10).2]
    norm_num [pyRound, rhe]

theorem fmtBody_indexError (d : Payload)
    (h : fmtBody d = Except.error PyErr.indexError) : d.weather = some [] := by
  unfold fmtBody at h
  cases hm : d.main with
  | none => simp [hm, getK] at h
  | some mb =>
      cases hmt : mb.temp with
      | none => simp [hm, hmt, getK] at h
      | some tc =>
          cases hmh : mb.humidity with
          | none => simp [hm, hmt, hmh, getK] at h
          | some hu =>
              cases hw : d.weather with
              | none => simp [hm, hmt, hmh, hw, getK] at h
              | some wl =>
                  cases wl with
                  | nil => rfl
                  | cons w0 ws =>
                      cases hwd : w0.description with
                      | none => simp [hm, hmt, hmh, hw, hwd, getK, idx0] at h
                      | some de =>
                          cases hwind : d.wind with
                          | none => simp [hm, hmt, hmh, hw, hwd, hwind, getK, idx0] at h
                          | some wb =>
                              cases hws : wb.speed with
                              | none =>
                                  simp [hm, hmt, hmh, hw, hwd, hwind, hws, getK,
                                    idx0] at h
                              | some sp =>
                                  cases hfl : mb.feels_like with
                                  | none =>
                                      simp [hm, hmt, hmh, hw, hwd, hwind, hws,
                                        hfl, getK, idx0] at h
                                  | some fl =>
                                      cases hwm : w0.wmain with
                                      | none =>
                                          simp [hm, hmt, hmh, hw, hwd, hwind,
                                            hws, hfl, hwm, getK, idx0] at h
                                      | some wm =>
                                          cases hwi : w0.icon with
                                          | none =>
                                              simp [hm, hmt, hmh, hw, hwd,
                                                hwind, hws, hfl, hwm, hwi, getK,
                                                idx0] at h
                                          | some ic =>
                                              simp [hm, hmt, hmh, hw, hwd,
                                                hwind, hws, hfl, hwm, hwi, getK,
                                                idx0] at h

/-- C6 counterexample: a payload whose `weather` key holds an empty array
makes `format_weather_data` raise (an uncaught `IndexError` from
`weather[0]`) — the function is not exception-free. -/
theorem c6_counterexample :
    format_weather_data emptyWeatherListPayload =
      Except.error PyErr.indexError := rfl

/-- C6 (amended): `format_weather_data` never yields a partial record — for
every payload it returns the unavailable marker, the formatting-error
marker (any missing required key), or the complete record; the one
exception-raising case is a present-but-empty `weather` array, whose
`IndexError` is not caught (only `KeyError` is). -/
theorem c6_amended :
    ∀ d : Payload,
      format_weather_data d = .ok (.errMarker "Weather data currently unavailable") ∨
      format_weather_data d = .ok (.errMarker "Error formatting weather data") ∨
      (∃ fw, format_weather_data d = .ok (.full fw)) ∨
      (format_weather_data d = .error .indexError ∧ d.weather = some []) := by
  intro d
  unfold format_weather_data
  by_cases hempty : (d.isEmptyP || d.errKey) = true
  · rw [if_pos hempty]
    exact Or.inl rfl
  · rw [if_neg hempty]
    cases hb : fmtBody d with
    | ok fw => exact Or.inr (Or.inr (Or.inl ⟨fw, rfl⟩))
    | error pe =>
        cases pe with
        | keyError => exact Or.inr (Or.inl rfl)
        | indexError =>
            exact Or.inr (Or.inr (Or.inr ⟨rfl, fmtBody_indexError d hb⟩))

/-! ## `process_query` branch lemmas and claims C1, C4, C9 -/

theorem format_emptyPayload :
    format_weather_data emptyPayload =
      .ok (.errMarker "Weather data currently unavailable") := rfl

theorem process_query_noloc (env : WeatherEnv) (st : AgentState) (q : String)
    (h1 : is_weather_query q = true)
    (h2 : extract_location env.llmExtract q = none) :
    process_query env st q = (.ok locErrorEnvelope, st) := by
  simp [process_query, h1, h2]

theorem pq_ext_some (env : WeatherEnv) (st : AgentState) (q : String)
    (loc : Location)
    (hoff : (is_weather_query q || is_weather_related q) = true)
    (hx : extract_location env.llmExtract q = some loc) :
    process_query env st q =
      process_located env q loc { st with last_location := some loc } := by
  simp [process_query, hoff, hx]

theorem pq_ext_none_cached (env : WeatherEnv) (st : AgentState) (q : String)
    (cached : Location)
    (hc : is_weather_related q = true) (hd : is_weather_query q = false)
    (hx : extract_location env.llmExtract q = none)
    (hl : st.last_location = some cached) :
    process_query env st q = process_located env q cached st := by
  simp [process_query, hc, hd, hx, hl]

theorem pq_ext_none_general (env : WeatherEnv) (st : AgentState) (q : String)
    (hc : is_weather_related q = true) (hd : is_weather_query q = false)
    (hx : extract_location env.llmExtract q = none)
    (hl : st.last_location = none) :
    process_query env st q = process_located env q ⟨"general"⟩ st := by
  simp [process_query, hc, hd, hx, hl]

theorem process_located_shape (env : WeatherEnv) (q : String) (loc : Location)
    (st1 : AgentState) :
    (∃ e, process_located env q loc st1 =
        (.ok e, { st1 with rate_limit := update_rate_limit env.now st1.rate_limit })) ∨
    (∃ pe, process_located env q loc st1 = (.error pe, st1)) := by
  unfold process_located
  rcases hgw : get_weather_data env loc with ⟨wd, apt, fb⟩
  simp only [hgw]
  cases wd with
  | none =>
      rw [format_emptyPayload]
      dsimp only
      split
      · exact Or.inl ⟨_, rfl⟩
      · exact Or.inl ⟨_, rfl⟩
  | some d =>
      cases hfw : format_weather_data (if d.truthy then d else emptyPayload) with
      | error pe => exact Or.inr ⟨pe, rfl⟩
      | ok fw =>
          dsimp only
          split
          · exact Or.inl ⟨_, rfl⟩
          · exact Or.inl ⟨_, rfl⟩

theorem process_located_chat (env : WeatherEnv) (q : String) (loc : Location)
    (st1 : AgentState)
    (hc : is_weather_related q = true) (hd : is_weather_query q = false) :
    ∀ e, (process_located env q loc st1).1 = .ok e →
      e.response.map RespBlock.location_context =
        some (some (if st1.last_location = some loc then "cached" else "new")) ∧
      e.query = some { text := q, is_weather_related := some true,
                       extracted_location := some (some loc) } := by
  intro e he
  have hcp : (is_weather_related q && !is_weather_query q) = true := by
    simp [hc, hd]
  unfold process_located at he
  rcases hgw : get_weather_data env loc with ⟨wd, apt, fb⟩
  rw [hgw] at he
  simp only at he
  cases wd with
  | none =>
      rw [format_emptyPayload] at he
      simp only [hcp, if_true] at he
      cases he
      exact ⟨rfl, rfl⟩
  | some d =>
      cases hfw : format_weather_data (if d.truthy then d else emptyPayload) with
      | error pe =>
          rw [hfw] at he
          simp at he
      | ok fw =>
          rw [hfw] at he
          simp only [hcp, if_true] at he
          cases he
          exact ⟨rfl, rfl⟩

theorem process_located_unavailable (env : WeatherEnv) (q : String)
    (loc : Location) (st1 : AgentState) (t : Int)
    (hgw : get_weather_data env loc = (none, t, true))
    (hd : is_weather_query q = true) :
    process_located env q loc st1 =
      (.ok (reportFailEnvelope env q loc
          (update_rate_limit env.now st1.rate_limit)),
       { st1 with rate_limit := update_rate_limit env.now st1.rate_limit }) := by
  unfold process_located
  rw [hgw]
  simp [format_emptyPayload, hd, reportFailEnvelope, freshnessText]

/-- C1 counterexample: the direct query `"weather in Xyzzyplatypus123"`
with a provider stub returning 404 produces an envelope whose `error` key
is absent and whose `weather_data` key IS present (holding the unavailable
marker) — not an error envelope without `weather_data`. -/
theorem c1_counterexample :
    (process_query env404 st0 "weather in Xyzzyplatypus123").1.toOption.map
        Envelope.error = some none ∧
    (process_query env404 st0 "weather in Xyzzyplatypus123").1.toOption.map
        Envelope.weather_data =
      some (some (.errMarker "Weather data currently unavailable")) := by
  constructor <;> rfl

/-- C1 (amended): a direct weather query whose location cannot be
*extracted* returns the bare error envelope (no `weather_data` key, state
untouched); a direct query whose location is extracted but whose provider
call returns a non-200 status returns a full weather-report envelope whose
`weather_data` key holds the unavailable marker (and no `error` key). -/
theorem c1_amended :
    (∀ (env : WeatherEnv) (st : AgentState) (q : String),
        is_weather_query q = true →
        extract_location env.llmExtract q = none →
        process_query env st q = (.ok locErrorEnvelope, st)) ∧
    (∀ (env : WeatherEnv) (st : AgentState) (q : String) (loc : Location)
        (status : Nat) (body : Payload),
        is_weather_query q = true →
        extract_location env.llmExtract q = some loc →
        env.http (String.mk (pstrip loc.city.data)) = .ok (status, body) →
        status ≠ 200 →
        process_query env st q =
          (.ok (reportFailEnvelope env q loc
              (update_rate_limit env.now st.rate_limit)),
           ⟨update_rate_limit env.now st.rate_limit, some loc⟩)) := by
  constructor
  · exact process_query_noloc
  · intro env st q loc status body h1 h2 hhttp hne
    have hgw : get_weather_data env loc =
        (none, if String.mk (pstrip loc.city.data) = "" then 0 else env.apiTime,
         true) := by
      unfold get_weather_data
      by_cases hc : String.mk (pstrip loc.city.data) = ""
      · rw [if_pos hc, if_pos hc]
      · rw [if_neg hc, if_neg hc, hhttp]
        simp [hne]
    have hoff : (is_weather_query q || is_weather_related q) = true := by
      simp [h1]
    rw [pq_ext_some env st q loc hoff h2,
      process_located_unavailable env q loc _ _ hgw h1]

/-- C1 witness: part one at the unextractable direct query `"forecast"`,
part two at `"weather in xyzzyplatypus123"` against the 404 provider. -/
theorem c1_witness :
    is_weather_query "forecast" = true ∧
    extract_location env404.llmExtract "forecast" = none ∧
    process_query env404 st0 "forecast" = (.ok locErrorEnvelope, st0) ∧
    is_weather_query "weather in xyzzyplatypus123" = true ∧
    extract_location env404.llmExtract "weather in xyzzyplatypus123" =
      some ⟨"xyzzyplatypus123"⟩ ∧
    process_query env404 st0 "weather in xyzzyplatypus123" =
      (.ok (reportFailEnvelope env404 "weather in xyzzyplatypus123"
          ⟨"xyzzyplatypus123"⟩ (update_rate_limit 0 st0.rate_limit)),
       ⟨update_rate_limit 0 st0.rate_limit, some ⟨"xyzzyplatypus123"⟩⟩) := by
  refine ⟨by decide, by decide, ?_, by decide, by decide, ?_⟩
  · exact c1_amended.1 env404 st0 "forecast" (by decide) (by decide)
  · exact c1_amended.2 env404 st0 "weather in xyzzyplatypus123"
      ⟨"xyzzyplatypus123"⟩ 404 emptyPayload (by decide) (by decide) rfl
      (by decide)

/-- C4 counterexample: the direct query `"forecast"` (no extractable
location) ends in the location-error envelope and does NOT decrement the
rate-limit counter — `remaining` stays at its prior value. -/
theorem c4_counterexample :
    (process_query env404 st0 "forecast").2.rate_limit = st0.rate_limit ∧
    (process_query env404 st0 "forecast").1.toOption.map Envelope.error =
      some (some "Could not determine location from query") := by
  constructor <;> rfl

/-- C4 (amended): every invocation of `process_query` that returns an
envelope applies `update_rate_limit` exactly once — EXCEPT the
direct-query-with-unresolvable-location path, which returns its error
envelope without touching the counter (an uncaught formatting exception
likewise leaves it untouched). -/
theorem c4_amended :
    ∀ (env : WeatherEnv) (st : AgentState) (q : String),
      ((is_weather_query q = true ∧ extract_location env.llmExtract q = none) →
        (process_query env st q).2.rate_limit = st.rate_limit) ∧
      (¬(is_weather_query q = true ∧ extract_location env.llmExtract q = none) →
        ∀ e, (process_query env st q).1 = .ok e →
        (process_query env st q).2.rate_limit =
          update_rate_limit env.now st.rate_limit) := by
  intro env st q
  constructor
  · rintro ⟨h1, h2⟩
    rw [process_query_noloc env st q h1 h2]
  · intro hnot e he
    by_cases hd : is_weather_query q = true
    · cases hx : extract_location env.llmExtract q with
      | none => exact absurd ⟨hd, hx⟩ hnot
      | some loc =>
          have hoff : (is_weather_query q || is_weather_related q) = true := by
            simp [hd]
          have hpq := pq_ext_some env st q loc hoff hx
          rcases process_located_shape env q loc
              { st with last_location := some loc } with ⟨e', hsh⟩ | ⟨pe, hsh⟩
          · rw [hpq, hsh]
          · rw [hpq, hsh] at he
            simp at he
    · have hdf : is_weather_query q = false := by
        revert hd; cases is_weather_query q <;> simp
      by_cases hc : is_weather_related q = true
      · have hoff : (is_weather_query q || is_weather_related q) = true := by
          simp [hc]
        cases hx : extract_location env.llmExtract q with
        | some loc =>
            have hpq := pq_ext_some env st q loc hoff hx
            rcases process_located_shape env q loc
                { st with last_location := some loc } with ⟨e', hsh⟩ | ⟨pe, hsh⟩
            · rw [hpq, hsh]
            · rw [hpq, hsh] at he
              simp at he
        | none =>
            cases hl : st.last_location with
            | some cached =>
                have hpq := pq_ext_none_cached env st q cached hc hdf hx hl
                rcases process_located_shape env q cached st with
                  ⟨e', hsh⟩ | ⟨pe, hsh⟩
                · rw [hpq, hsh]
                · rw [hpq, hsh] at he
                  simp at he
            | none =>
                have hpq := pq_ext_none_general env st q hc hdf hx hl
                rcases process_located_shape env q ⟨"general"⟩ st with
                  ⟨e', hsh⟩ | ⟨pe, hsh⟩
                · rw [hpq, hsh]
                · rw [hpq, hsh] at he
                  simp at he
      · have hcf : is_weather_related q = false := by
          revert hc; cases is_weather_related q <;> simp
        have hpq : process_query env st q =
            (.ok (offTopicEnvelope env q (update_rate_limit env.now st.rate_limit)),
             { st with rate_limit := update_rate_limit env.now st.rate_limit }) := by
          simp [process_query, hdf, hcf]
        rw [hpq]

/-- C4 witness: the off-path query `"forecast"` leaves the counter alone
(first part), while a normal direct query decrements it by one. -/
theorem c4_witness :
    (process_query env404 st0 "forecast").2.rate_limit = st0.rate_limit ∧
    (process_query env404 st0 "weather in paris").2.rate_limit =
      update_rate_limit 0 st0.rate_limit := by
  constructor
  · exact (c4_amended env404 st0 "forecast").1 ⟨by decide, by decide⟩
  · exact (c4_amended env404 st0 "weather in paris").2
      (by intro hcon; exact absurd hcon.2 (by decide)) _ rfl

/-- C9: on the weather-chat path, `location_context` is `"cached"`
whenever the extractor returned a location or the stored last-known
location was reused (a fresh extraction is written to `last_location`
before the equality test); `"new"` can only be reported when the resolved
location is the sentinel `{"city": "general"}` and it differs from the
stored `last_location`. -/
theorem c9_location_context :
    ∀ (env : WeatherEnv) (st : AgentState) (q : String),
      is_weather_related q = true → is_weather_query q = false →
      (∀ loc, extract_location env.llmExtract q = some loc →
        ∀ e, (process_query env st q).1 = .ok e →
          e.response.map RespBlock.location_context = some (some "cached")) ∧
      (extract_location env.llmExtract q = none →
        ∀ cached, st.last_location = some cached →
        ∀ e, (process_query env st q).1 = .ok e →
          e.response.map RespBlock.location_context = some (some "cached")) ∧
      (∀ e, (process_query env st q).1 = .ok e →
        e.response.map RespBlock.location_context = some (some "new") →
        e.query.map QueryBlock.extracted_location =
            some (some (some ⟨"general"⟩)) ∧
          st.last_location ≠ some ⟨"general"⟩) := by
  intro env st q hc hd
  have hoff : (is_weather_query q || is_weather_related q) = true := by
    simp [hc]
  refine ⟨?_, ?_, ?_⟩
  · intro loc hx e he
    rw [pq_ext_some env st q loc hoff hx] at he
    have hch := process_located_chat env q loc
      { st with last_location := some loc } hc hd e he
    rw [hch.1]
    simp
  · intro hx cached hl e he
    rw [pq_ext_none_cached env st q cached hc hd hx hl] at he
    have hch := process_located_chat env q cached st hc hd e he
    rw [hch.1, hl]
    simp
  · intro e he hnew
    cases hx : extract_location env.llmExtract q with
    | some loc =>
        rw [pq_ext_some env st q loc hoff hx] at he
        have hch := process_located_chat env q loc
          { st with last_location := some loc } hc hd e he
        rw [hch.1] at hnew
        simp at hnew
    | none =>
        cases hl : st.last_location with
        | some cached =>
            rw [pq_ext_none_cached env st q cached hc hd hx hl] at he
            have hch := process_located_chat env q cached st hc hd e he
            rw [hch.1, hl] at hnew
            simp at hnew
        | none =>
            rw [pq_ext_none_general env st q hc hd hx hl] at he
            have hch := process_located_chat env q ⟨"general"⟩ st hc hd e he
            constructor
            · rw [hch.2]
              rfl
            · simp

/-- C9 witness: `"weather is cold"` is weather-chat with an extractable
location (`"is cold"` via the second pattern), and its envelope reports
`location_context = "cached"`. -/
theorem c9_witness :
    is_weather_related "weather is cold" = true ∧
    is_weather_query "weather is cold" = false ∧
    extract_location env404.llmExtract "weather is cold" =
      some ⟨"is cold"⟩ ∧
    ((process_query env404 st0 "weather is cold").1.toOption.getD
        locErrorEnvelope).response.map RespBlock.location_context =
      some (some "cached") := by
  refine ⟨by decide, by decide, by decide, ?_⟩
  have h := (c9_location_context env404 st0 "weather is cold" (by decide)
    (by decide)).1 ⟨"is cold"⟩ (by decide)
    ((process_query env404 st0 "weather is cold").1.toOption.getD
      locErrorEnvelope) (by rfl)
  exact h

/-- C10 witness: the empty input estimates to one token and passes
validation; the 800004-character input is rejected (estimate 200001,
above the maximum). -/
theorem c10_witness :
    1 ≤ estimate_tokens_lang "" ∧ validate_input_length "" = true ∧
    validate_input_length bigText = false := by
  refine ⟨c10_min_bound_never_fails.1 "", c10_min_bound_never_fails.2.1, ?_⟩
  apply (c10_min_bound_never_fails.2.2.2 bigText).mpr
  have hlen : bigText.length = 800004 := List.length_replicate 800004 'a'
  unfold estimate_tokens_lang
  rw [hlen]
  decide

/-! ## Extractor lemmas and claim C2 -/

theorem wordChar_not_pws (c : Char) (h : isWordChar c = true) :
    pws c = false := by
  by_contra hp
  have hp' : pws c = true := by revert hp; cases pws c <;> simp
  simp only [pws, Bool.or_eq_true, decide_eq_true_eq] at hp'
  rcases hp' with ((((h1 | h1) | h1) | h1) | h1) | h1 <;> subst h1 <;>
    exact absurd h (by decide)

theorem good_char_wsOrWord (c : Char) (h : (isWordChar c || c = ' ') = true) :
    wsOrWord c = true := by
  have h' : isWordChar c = true ∨ c = ' ' := by simpa using h
  rcases h' with h1 | h1
  · simp [wsOrWord, h1]
  · subst h1
    decide

theorem dropWhile_eq_self (p : Char → Bool) (l : List Char)
    (h : ∀ c, l.head? = some c → p c = false) : l.dropWhile p = l := by
  cases l with
  | nil => rfl
  | cons c cs =>
      rw [List.dropWhile_cons, h c rfl]
      simp

theorem pstrip_eq_self (l : List Char)
    (hh : ∀ c, l.head? = some c → pws c = false)
    (hl : ∀ c, l.getLast? = some c → pws c = false) :
    pstrip l = l := by
  unfold pstrip
  rw [dropWhile_eq_self pws l hh,
    dropWhile_eq_self pws l.reverse
      (fun c hc => hl c (by rwa [List.head?_reverse] at hc))]
  exact List.reverse_reverse l

theorem timeWords_no_space :
    ∀ tw ∈ timeWords, ∀ c ∈ tw, pws c = false := by decide

theorem not_timeSubMatch_drop (s : List Char) (h : hasTimeRef s = false) :
    ∀ k, timeSubMatch (s.drop k) = false := by
  induction s with
  | nil =>
      intro k
      rw [List.drop_nil]
      decide
  | cons c cs ih =>
      intro k
      rw [hasTimeRef, Bool.or_eq_false_iff] at h
      cases k with
      | zero => exact h.1
      | succ k' =>
          rw [List.drop_succ_cons]
          exact ih h.2 k'

theorem stripTimeRe_eq_self (s : List Char) (h : hasTimeRef s = false) :
    stripTimeRe s = s := by
  induction s with
  | nil => rfl
  | cons c cs ih =>
      rw [hasTimeRef, Bool.or_eq_false_iff] at h
      rw [stripTimeRe, if_neg (by simp [h.1]), ih h.2]

theorem getLast?_some_mem {l : List Char} {c : Char}
    (h : l.getLast? = some c) : c ∈ l := by
  obtain ⟨hne, heq⟩ := List.mem_getLast?_eq_getLast
    (show c ∈ l.getLast? by rw [h]; rfl)
  rw [heq]
  exact List.getLast_mem hne

theorem tailOk_false_of (x : List Char) (hne : x ≠ [])
    (hq : '?' ∉ x) (hts : timeSubMatch x = false) : tailOk x = false := by
  have h1 : x.isEmpty = false := by
    cases x with
    | nil => exact absurd rfl hne
    | cons a l => rfl
  have h2 : x.getLast? ≠ some '?' := fun hc => hq (getLast?_some_mem hc)
  have h3 : isTimeTail x = false := by
    by_contra hcon
    have h3' : isTimeTail x = true := by revert hcon; cases isTimeTail x <;> simp
    rw [isTimeTail, Bool.and_eq_true] at h3'
    obtain ⟨hta, htb⟩ := h3'
    have htw : x.dropWhile pws ∈ timeWords := by simpa using htb
    have hmt : timeSubMatch x = true := by
      rw [timeSubMatch, List.any_eq_true]
      refine ⟨x.dropWhile pws, htw, ?_⟩
      rw [Bool.and_eq_true]
      refine ⟨List.isPrefixOf_iff_prefix.mpr (List.prefix_refl _), ?_⟩
      rw [List.drop_length]
      rfl
    rw [hmt] at hts
    simp at hts
  rw [tailOk, h1, h3]
  simp [h2]

theorem or_some_ne_q (z : Option Char) (c : Char) (hcq : c ≠ '?') :
    (some c).or z ≠ some '?' := by
  rw [show (some c).or z = some c from rfl]
  simp [hcq]

theorem tailOk_false_timetail (x : List Char) (tw : List Char)
    (htw : tw ∈ timeWords) (hxne : x ≠ [])
    (hlast : ∃ c, x.getLast? = some c ∧ pws c = false) :
    tailOk (x ++ ' ' :: tw) = false := by
  obtain ⟨lc, hlc, hlcp⟩ := hlast
  have h1 : (x ++ ' ' :: tw).isEmpty = false := by
    cases x with
    | nil => exact absurd rfl hxne
    | cons a l => rfl
  have hq2 : (' ' :: tw).getLast? ≠ some '?' := by
    rcases (show tw = "today".data ∨ tw = "now".data ∨ tw = "tomorrow".data by
      simpa [timeWords] using htw) with rfl | rfl | rfl <;> decide
  have h2 : (x ++ ' ' :: tw).getLast? ≠ some '?' := by
    rw [List.getLast?_append]
    cases hgl : (' ' :: tw).getLast? with
    | none => simp [List.getLast?_eq_none_iff] at hgl
    | some c' =>
        rw [show (some c').or x.getLast? = some c' from rfl]
        intro hc
        exact hq2 (hgl.trans hc)
  have hxd : x.dropWhile pws ≠ [] := by
    rw [Ne, List.dropWhile_eq_nil_iff]
    push_neg
    exact ⟨lc, getLast?_some_mem hlc, by simp [hlcp]⟩
  have h3 : isTimeTail (x ++ ' ' :: tw) = false := by
    have hmem : (x.dropWhile pws ++ ' ' :: tw) ∉ timeWords := by
      intro hcon
      have hsp : (' ' : Char) ∈ x.dropWhile pws ++ ' ' :: tw := by simp
      have := timeWords_no_space _ hcon ' ' hsp
      simp [pws] at this
    rw [isTimeTail, List.dropWhile_append, if_neg (by simp [hxd])]
    simp [hmem]
  rw [tailOk, h1, h3]
  simp [h2, hq2]

theorem lazyCaptureAux_exact (sep : List Char) (hsep : tailOk sep = true) :
    ∀ (body : List Char) (acc : List Char), body ≠ [] →
      (∀ c ∈ body, wsOrWord c = true) →
      (∀ k, 1 ≤ k → k < body.length → tailOk (body.drop k ++ sep) = false) →
      lazyCaptureAux acc (body ++ sep) = some (acc.reverse ++ body) := by
  intro body
  induction body with
  | nil => intro acc h; exact absurd rfl h
  | cons c cs ih =>
      intro acc _ hgood hmin
      have hc : wsOrWord c = true := hgood c (List.mem_cons_self c cs)
      cases cs with
      | nil =>
          simp [lazyCaptureAux, hc, hsep]
      | cons c2 cs2 =>
          have ht : tailOk (c2 :: (cs2 ++ sep)) = false := by
            have := hmin 1 (le_refl 1) (by simp)
            simpa using this
          rw [List.cons_append, lazyCaptureAux, if_pos hc, if_neg (by simp [ht])]
          rw [ih (c :: acc) (by simp)
            (fun d hd => hgood d (List.mem_cons_of_mem c hd)) ?_]
          · simp
          · intro k hk1 hk2
            have hlen : k + 1 < (c :: c2 :: cs2).length := by
              simp only [List.length_cons] at hk2 ⊢
              omega
            have := hmin (k + 1) (by omega) hlen
            simpa [List.drop_succ_cons] using this

theorem tryLits_hit (lit : List Char) (ls : List (List Char))
    (rest cap : List Char) (h : lazyCapture rest = some cap) :
    tryLits (lit :: ls) (lit ++ rest) = some cap := by
  have hp : lit.isPrefixOf (lit ++ rest) = true :=
    List.isPrefixOf_iff_prefix.mpr (List.prefix_append lit rest)
  rw [tryLits, if_pos hp, List.drop_left, h]

theorem searchCap_p1 (rest cap : List Char) (h : lazyCapture rest = some cap) :
    searchCap p1lits ("weather in ".data ++ rest) = some cap := by
  have e1 : "weather in ".data ++ rest = 'w' :: ("eather in ".data ++ rest) :=
    rfl
  rw [e1, searchCap, ← e1]
  rw [show p1lits = "weather in ".data ::
    ["weather at ".data, "weather for ".data] from rfl]
  rw [tryLits_hit "weather in ".data _ rest cap h]

theorem searchPatterns_p1 (rest cap : List Char)
    (h : lazyCapture rest = some cap) :
    searchPatterns ("weather in ".data ++ rest) = some cap := by
  rw [searchPatterns, searchCap_p1 rest cap h]

/-- Evaluation of `extract_location` on queries of the shape
`"weather in " + city + sep` for a wellformed city and a suffix accepted by
the tail of the first pattern. -/
theorem extract_location_wi (fb : String → Option Location)
    (city sep : List Char)
    (hne : city ≠ [])
    (hgoodL : ∀ c ∈ city, wsOrWord c = true)
    (hhead : ∀ c, city.head? = some c → pws c = false)
    (hlast : ∀ c, city.getLast? = some c → pws c = false)
    (hlower : lowerL city = city)
    (hts : hasTimeRef city = false)
    (hsep_tail : tailOk sep = true)
    (hsep_lower : lowerL sep = sep)
    (hsep_last : ∀ c, (city ++ sep).getLast? = some c → pws c = false)
    (hmin : ∀ k, 1 ≤ k → k < city.length → tailOk (city.drop k ++ sep) = false) :
    extract_location fb ⟨"weather in ".data ++ (city ++ sep)⟩ =
      some ⟨⟨city⟩⟩ := by
  have hlow : lowerL ("weather in ".data ++ (city ++ sep)) =
      "weather in ".data ++ (city ++ sep) := by
    unfold lowerL at hlower hsep_lower ⊢
    rw [List.map_append, List.map_append, hlower, hsep_lower]
    rw [show "weather in ".data.map Char.toLower = "weather in ".data by decide]
  have hq : pstrip (lowerL (String.mk
      ("weather in ".data ++ (city ++ sep))).data) =
      "weather in ".data ++ (city ++ sep) := by
    rw [show (String.mk ("weather in ".data ++ (city ++ sep))).data =
      "weather in ".data ++ (city ++ sep) from rfl, hlow]
    apply pstrip_eq_self
    · intro c hc
      rw [show ("weather in ".data ++ (city ++ sep)).head? = some 'w'
        from rfl] at hc
      have : c = 'w' := by simpa using hc.symm
      subst this
      decide
    · intro c hc
      rw [List.getLast?_append] at hc
      cases hgl : (city ++ sep).getLast? with
      | none =>
          rw [List.getLast?_eq_none_iff] at hgl
          exact absurd (List.append_eq_nil.mp hgl).1 hne
      | some c' =>
          rw [hgl, show (some c').or ("weather in ".data).getLast? = some c'
            from rfl] at hc
          have : c' = c := by simpa using hc
          subst this
          exact hsep_last c' hgl
  have hcap : lazyCapture (city ++ sep) = some city := by
    have := lazyCaptureAux_exact sep hsep_tail city [] hne hgoodL hmin
    simpa [lazyCapture] using this
  rw [extract_location]
  rw [hq, searchPatterns_p1 (city ++ sep) city hcap]
  dsimp only
  rw [pstrip_eq_self city hhead hlast, stripTimeRe_eq_self city hts]

theorem sep_last_aux (city sep : List Char) (c0 : Char)
    (h0 : sep.getLast? = some c0) (hp : pws c0 = false) :
    ∀ c, (city ++ sep).getLast? = some c → pws c = false := by
  intro c hc
  rw [List.getLast?_append, h0,
    show (some c0).or city.getLast? = some c0 from rfl] at hc
  have he : c0 = c := by simpa using hc
  subst he
  exact hp

/-- C2 counterexample: for the query `"weather in Paris"` the extractor
returns `{city: "paris"}` — the query is lowercased before matching, so the
captured city text is NOT returned unchanged. -/
theorem c2_counterexample :
    extract_location (fun _ => none) "weather in Paris" = some ⟨"paris"⟩ ∧
    (⟨"paris"⟩ : Location) ≠ ⟨"Paris"⟩ := by
  constructor
  · decide
  · decide

/-- C2 (amended): for every query `"weather in <city>"` whose city is a
nonempty string of word characters and single spaces, not starting or
ending in a space and carrying no trailing time reference, the extractor
returns `{city: lowercase(<city>)}` (stated here for an already-lowercase
city; the counterexample exhibits the lowercasing); a trailing `" today"`,
`" now"` or `" tomorrow"` token after the city is stripped. -/
theorem c2_amended :
    ∀ (city : List Char) (fb : String → Option Location),
      city ≠ [] →
      (∀ c ∈ city, (isWordChar c || c = ' ') = true) →
      city.head? ≠ some ' ' →
      city.getLast? ≠ some ' ' →
      lowerL city = city →
      hasTimeRef city = false →
      extract_location fb ⟨"weather in ".data ++ city⟩ = some ⟨⟨city⟩⟩ ∧
      extract_location fb ⟨"weather in ".data ++ (city ++ " today".data)⟩ =
        some ⟨⟨city⟩⟩ ∧
      extract_location fb ⟨"weather in ".data ++ (city ++ " now".data)⟩ =
        some ⟨⟨city⟩⟩ ∧
      extract_location fb ⟨"weather in ".data ++ (city ++ " tomorrow".data)⟩ =
        some ⟨⟨city⟩⟩ := by
  intro city fb hne hgood hh hl hlower hts
  have hgoodL : ∀ c ∈ city, wsOrWord c = true :=
    fun c hc => good_char_wsOrWord c (hgood c hc)
  have hhead' : ∀ c, city.head? = some c → pws c = false := by
    intro c hc
    have hmem : c ∈ city := by
      cases city with
      | nil => simp at hc
      | cons a l =>
          have ha : a = c := by simpa using hc
          subst ha
          exact List.mem_cons_self a l
    have h' : isWordChar c = true ∨ c = ' ' := by simpa using hgood c hmem
    rcases h' with h1 | h1
    · exact wordChar_not_pws c h1
    · subst h1
      exact absurd hc hh
  have hlast' : ∀ c, city.getLast? = some c → pws c = false := by
    intro c hc
    have hmem : c ∈ city := getLast?_some_mem hc
    have h' : isWordChar c = true ∨ c = ' ' := by simpa using hgood c hmem
    rcases h' with h1 | h1
    · exact wordChar_not_pws c h1
    · subst h1
      exact absurd hc hl
  have hnq : '?' ∉ city := fun hmem => absurd (hgood '?' hmem) (by decide)
  have hminP : ∀ k, 1 ≤ k → k < city.length →
      tailOk (city.drop k ++ []) = false := by
    intro k h1 h2
    rw [List.append_nil]
    apply tailOk_false_of
    · rw [Ne, List.drop_eq_nil_iff]
      omega
    · exact fun hmem => hnq (List.drop_subset k city hmem)
    · exact not_timeSubMatch_drop city hts k
  have hlastDrop : ∀ k, k < city.length →
      ∃ c, (city.drop k).getLast? = some c ∧ pws c = false := by
    intro k hk
    have hgl : city.getLast? =
        ((city.drop k).getLast?).or ((city.take k).getLast?) := by
      conv_lhs => rw [← List.take_append_drop k city]
      exact List.getLast?_append
    cases hcase : (city.drop k).getLast? with
    | none =>
        rw [List.getLast?_eq_none_iff, List.drop_eq_nil_iff] at hcase
        omega
    | some c =>
        refine ⟨c, rfl, ?_⟩
        apply hlast' c
        rw [hgl, hcase]
        rfl
  have hminT : ∀ (tw : List Char), tw ∈ timeWords → ∀ k, 1 ≤ k →
      k < city.length → tailOk (city.drop k ++ ' ' :: tw) = false := by
    intro tw htw k h1 h2
    apply tailOk_false_timetail _ tw htw
    · rw [Ne, List.drop_eq_nil_iff]
      omega
    · exact hlastDrop k h2
  refine ⟨?_, ?_, ?_, ?_⟩
  · have h0 := extract_location_wi fb city [] hne hgoodL hhead' hlast' hlower
      hts (by decide) rfl
      (fun c hc => hlast' c (by rwa [List.append_nil] at hc)) hminP
    rwa [List.append_nil] at h0
  · exact extract_location_wi fb city " today".data hne hgoodL hhead' hlast'
      hlower hts (by decide) (by decide)
      (sep_last_aux city " today".data 'y' rfl (by decide))
      (fun k h1 h2 => hminT "today".data (by decide) k h1 h2)
  · exact extract_location_wi fb city " now".data hne hgoodL hhead' hlast'
      hlower hts (by decide) (by decide)
      (sep_last_aux city " now".data 'w' rfl (by decide))
      (fun k h1 h2 => hminT "now".data (by decide) k h1 h2)
  · exact extract_location_wi fb city " tomorrow".data hne hgoodL hhead'
      hlast' hlower hts (by decide) (by decide)
      (sep_last_aux city " tomorrow".data 'w' rfl (by decide))
      (fun k h1 h2 => hminT "tomorrow".data (by decide) k h1 h2)

/-- C2 witness: at the city `"paris"`, both the plain query and the
query with a trailing `" today"` yield `{city: "paris"}`. -/
theorem c2_witness :
    extract_location (fun _ => none) ⟨"weather in ".data ++ "paris".data⟩ =
      some ⟨⟨"paris".data⟩⟩ ∧
    extract_location (fun _ => none)
        ⟨"weather in ".data ++ ("paris".data ++ " today".data)⟩ =
      some ⟨⟨"paris".data⟩⟩ := by
  have h := c2_amended "paris".data (fun _ => none) (by decide) (by decide)
    (by decide) (by decide) (by decide) (by decide)
  exact ⟨h.1, h.2.1⟩

end MiniAgents
